import Mathlib

/-!
Shallow embedding of `custom_components/meteo_station/sensor.py`.

Numeric sensor values are modelled as rationals (`ℚ`); Python's `round`
(banker's rounding) is modelled exactly on `ℚ`.  Timestamps are modelled by a
`DT` record together with a parser for the ISO-8601 strings the upstream API
and `datetime.isoformat` produce (`dateutil.parser.parse` is more lenient, but
on the formats that flow through this program it agrees with this parser), and
a formatter for `strftime` with the format string used by the code.
-/

namespace MeteoStation

/-- Python `round(q)`: nearest integer, ties to the even integer.  The floor
is computed as floor division of numerator by denominator. -/
def roundHalfEven (q : ℚ) : ℤ :=
  let f : ℤ := Int.fdiv q.num (q.den : ℤ)
  let r : ℚ := q - (f : ℚ)
  if r < 1/2 then f
  else if 1/2 < r then f + 1
  else if f % 2 = 0 then f else f + 1

/-- Python `round(q, 1)`: nearest multiple of 1/10, ties to even. -/
def pyRound1 (q : ℚ) : ℚ := (roundHalfEven (q * 10) : ℚ) / 10

/-- `statistics.mean` (only ever called on a nonempty list in the source). -/
def mean (l : List ℚ) : ℚ := l.sum / l.length

/-- A parsed timestamp: the fields of a Python `datetime` (UTC). -/
structure DT where
  year : ℕ
  month : ℕ
  day : ℕ
  hour : ℕ
  minute : ℕ
  second : ℕ
  micro : ℕ
deriving DecidableEq, Repr

/-- Mixed-radix key realising the field-wise `datetime` comparison
(parsed values satisfy `month ≤ 12`, `day ≤ 31`, `hour < 24`, `minute < 60`,
`second < 60`, `micro < 10^6`, so the key is injective and order-faithful). -/
def dtKey (t : DT) : ℕ :=
  t.micro + 1000000 * (t.second + 60 * (t.minute + 60 * (t.hour + 24 *
    (t.day + 32 * (t.month + 13 * t.year)))))

/-- The character for a decimal digit. -/
def c0 (d : ℕ) : Char := Char.ofNat (48 + d)

/-- Read one decimal digit. -/
def digit? (c : Char) : Option ℕ :=
  if 48 ≤ c.toNat ∧ c.toNat ≤ 57 then some (c.toNat - 48) else none

/-- Consume one digit from the front of a character list. -/
def takeDigit : List Char → Option (ℕ × List Char)
  | c :: rest => (digit? c).map (fun d => (d, rest))
  | [] => none

/-- Consume two digits, returning their value. -/
def take2 (l : List Char) : Option (ℕ × List Char) := do
  let (a, l) ← takeDigit l
  let (b, l) ← takeDigit l
  pure (10 * a + b, l)

/-- Consume four digits, returning their value. -/
def take4 (l : List Char) : Option (ℕ × List Char) := do
  let (a, l) ← take2 l
  let (b, l) ← take2 l
  pure (100 * a + b, l)

/-- Consume an expected literal character. -/
def expectChar (c : Char) : List Char → Option (List Char)
  | x :: rest => if x = c then some rest else none
  | [] => none

/-- Consume a maximal run of digits. -/
def takeDigits : List Char → List ℕ × List Char
  | c :: rest =>
    match digit? c with
    | some d => let (ds, l) := takeDigits rest; (d :: ds, l)
    | none => ([], c :: rest)
  | [] => ([], [])

/-- Fractional seconds digits to microseconds (pad/truncate to 6 digits),
as `dateutil` interprets them. -/
def fracToMicro (ds : List ℕ) : ℕ :=
  ((ds ++ [0, 0, 0, 0, 0, 0]).take 6).foldl (fun a d => a * 10 + d) 0

/-- Optional `.ffff` fractional-seconds part. -/
def parseFrac : List Char → Option (ℕ × List Char)
  | '.' :: rest =>
    match takeDigits rest with
    | ([], _) => none
    | (ds, l) => some (fracToMicro ds, l)
  | l => some (0, l)

/-- Trailing timezone marker: empty (naive), `Z`, or the `+00:00` that
`datetime.isoformat` emits for UTC. -/
def parseTZ : List Char → Bool
  | [] => true
  | ['Z'] => true
  | ['+', '0', '0', ':', '0', '0'] => true
  | _ => false

/-- `dateutil.parser.parse`, restricted to the ISO-8601 shapes that reach it
in this program (`YYYY-MM-DDTHH:MM:SS[.f+][Z|+00:00]`); returns `none` when
parsing fails (the Python call raises). -/
def date_parse (s : String) : Option DT := do
  let l := s.data
  let (y, l) ← take4 l
  let l ← expectChar '-' l
  let (mo, l) ← take2 l
  let l ← expectChar '-' l
  let (d, l) ← take2 l
  let l ← expectChar 'T' l
  let (h, l) ← take2 l
  let l ← expectChar ':' l
  let (mi, l) ← take2 l
  let l ← expectChar ':' l
  let (s2, l) ← take2 l
  let (us, l) ← parseFrac l
  if parseTZ l ∧ 1 ≤ mo ∧ mo ≤ 12 ∧ 1 ≤ d ∧ d ≤ 31 ∧ h < 24 ∧ mi < 60 ∧ s2 < 60 then
    some ⟨y, mo, d, h, mi, s2, us⟩
  else
    none

/-- Two-digit zero-padded decimal. -/
def pad2 (n : ℕ) : List Char := [c0 (n / 10 % 10), c0 (n % 10)]

/-- Four-digit zero-padded decimal. -/
def pad4 (n : ℕ) : List Char :=
  [c0 (n / 1000 % 10), c0 (n / 100 % 10), c0 (n / 10 % 10), c0 (n % 10)]

/-- Six-digit zero-padded decimal (microseconds). -/
def pad6 (n : ℕ) : List Char :=
  [c0 (n / 100000 % 10), c0 (n / 10000 % 10), c0 (n / 1000 % 10),
   c0 (n / 100 % 10), c0 (n / 10 % 10), c0 (n % 10)]

/-- `datetime.isoformat` for the UTC-aware datetimes this program builds:
fractional part only when microseconds are nonzero, `+00:00` suffix. -/
def isoformat (t : DT) : String :=
  String.mk (pad4 t.year ++ '-' :: pad2 t.month ++ '-' :: pad2 t.day ++
    'T' :: pad2 t.hour ++ ':' :: pad2 t.minute ++ ':' :: pad2 t.second ++
    (if t.micro = 0 then [] else '.' :: pad6 t.micro) ++
    ['+', '0', '0', ':', '0', '0'])

/-- `strftime("%Y-%m-%d %H:%M:%S")`. -/
def strftime (t : DT) : String :=
  String.mk (pad4 t.year ++ '-' :: pad2 t.month ++ '-' :: pad2 t.day ++
    ' ' :: pad2 t.hour ++ ':' :: pad2 t.minute ++ ':' :: pad2 t.second)

/-! ## Data model: the decoded upstream document -/

/-- One entry of a station's `pollutants` array. -/
structure Pollutant where
  pol : String
  value : ℚ
  unit : String
  time : Option String
deriving DecidableEq, Repr

/-- One station record of the upstream JSON array. -/
structure Station where
  id : String
  cityName : String
  pollutants : List Pollutant
deriving DecidableEq, Repr

/-- The state a `BaseSensor` owns: `_state`, `_last_updated`, `_source_ids`. -/
structure SensorState where
  state : Option ℚ
  lastUpdated : Option String
  sourceIds : List String
deriving DecidableEq, Repr

/-- The `extra_state_attributes` map the sensors expose. -/
structure Attrs where
  lastUpdated : Option String
  sourceSensors : List String
deriving DecidableEq, Repr

/-- `next((p for p in pollutants if p['pol'] == type), None)`. -/
def findPollutant (ty : String) (ps : List Pollutant) : Option Pollutant :=
  ps.find? (fun p => p.pol == ty)

/-- The match condition of `OptimizedSensor.async_update`'s loop:
city name when `is_city`, station id otherwise. -/
def stationMatches (identifier : String) (isCity : Bool) (s : Station) : Bool :=
  if isCity then s.cityName == identifier else s.id == identifier

/-- One step of the maximum-timestamp tracking:
`if not latest_time or ts > latest_time`. -/
def maxStep (latest : Option DT) (ts : DT) : Option DT :=
  match latest with
  | none => some ts
  | some l => if dtKey ts > dtKey l then some ts else some l

/-- One iteration of the accumulation loop shared by both update methods: for
a matching station whose pollutant list has an entry for the metric, append
the value and the station id, and fold the parsed timestamp (when the `time`
key is present and parses) into the running maximum; otherwise leave the
accumulator alone. -/
def collectStep (isMatch : Station → Bool) (ty : String)
    (acc : List ℚ × List String × Option DT) (s : Station) :
    List ℚ × List String × Option DT :=
  if isMatch s then
    match findPollutant ty s.pollutants with
    | some p =>
      (acc.1 ++ [p.value], acc.2.1 ++ [s.id],
        match p.time with
        | some tstr =>
          match date_parse tstr with
          | some ts => maxStep acc.2.2 ts
          | none => acc.2.2
        | none => acc.2.2)
    | none => acc
  else acc

/-- The accumulation loop shared by both update methods: walks the document
in order starting from empty accumulators.  (`AggregatedSensor.async_update`
discards the id component.) -/
def collectObs (isMatch : Station → Bool) (ty : String) (data : List Station) :
    List ℚ × List String × Option DT :=
  data.foldl (collectStep isMatch ty) ([], [], none)

/-- The rounding applied by `BaseSensor._update_state`: `round(value, 1)` for
Temperature, `round(value)` otherwise. -/
def roundPolicy (ty : String) (v : ℚ) : ℚ :=
  if ty == "Temperature" then pyRound1 v else (roundHalfEven v : ℚ)

/-- `BaseSensor._update_state`.  `_state` is assigned first; if the timestamp
then fails to parse, the raised exception is caught and `_last_updated` keeps
its previous value (a partial update). -/
def update_state (ty : String) (st : SensorState) (value : ℚ) (timestamp : String) :
    SensorState :=
  let st1 := { st with state := some (roundPolicy ty value) }
  match date_parse timestamp with
  | some dt => { st1 with lastUpdated := some (strftime dt) }
  | none => st1

/-- The timestamp string handed to `_update_state`:
`latest_time.isoformat() if latest_time else ""`. -/
def latestString (latest : Option DT) : String :=
  match latest with
  | some dt => isoformat dt
  | none => ""

/-- `OptimizedSensor.async_update`, as a function of the document the cache
and fetch steps resolved to (`none` when no data could be obtained).  Returns
the new sensor state and whether `async_write_ha_state` was called.  Note that
`_source_ids` is reset to `[]` before anything else. -/
def OptimizedSensor.async_update (data : Option (List Station))
    (identifier : String) (isCity : Bool) (ty : String) (st : SensorState) :
    SensorState × Bool :=
  let st := { st with sourceIds := [] }
  match data with
  | none => (st, false)
  | some d =>
    let c := collectObs (stationMatches identifier isCity) ty d
    match c.1 with
    | [] => (st, false)
    | v :: vs =>
      let avg := if (v :: vs).length > 1 then mean (v :: vs) else v
      ({ update_state ty st avg (latestString c.2.2) with sourceIds := c.2.1 }, true)

/-- `AggregatedSensor.async_update`: matches stations whose id is in the
configured set, always takes `mean(values)`, and never fills `_source_ids`. -/
def AggregatedSensor.async_update (data : Option (List Station))
    (sensorIds : List String) (ty : String) (st : SensorState) :
    SensorState × Bool :=
  let st := { st with sourceIds := [] }
  match data with
  | none => (st, false)
  | some d =>
    let c := collectObs (fun s => sensorIds.contains s.id) ty d
    match c.1 with
    | [] => (st, false)
    | v :: vs =>
      ({ update_state ty st (mean (v :: vs)) (latestString c.2.2) with
          sourceIds := [] }, true)

/-- `OptimizedSensor.extra_state_attributes`: exposes `_source_ids`. -/
def OptimizedSensor.extra_state_attributes (st : SensorState) : Attrs :=
  ⟨st.lastUpdated, st.sourceIds⟩

/-- `AggregatedSensor.extra_state_attributes`: exposes the configured
`_sensor_ids` (the Python `set`, modelled as its element list), not the
stations that contributed. -/
def AggregatedSensor.extra_state_attributes (sensorIds : List String)
    (st : SensorState) : Attrs :=
  ⟨st.lastUpdated, sensorIds⟩

/-! ## CompressedJSONCache -/

/-- CRC-32 (the `zlib.crc32` polynomial, reflected, init and xorout
`0xFFFFFFFF`), one byte step. -/
def crc32Byte (c : ℕ) (b : ℕ) : ℕ :=
  (List.range 8).foldl
    (fun c _ => if c % 2 = 1 then Nat.xor (c / 2) 0xEDB88320 else c / 2)
    (Nat.xor c (b % 256))

/-- `zlib.crc32` over a byte sequence. -/
def crc32 (data : List ℕ) : ℕ :=
  Nat.xor (data.foldl crc32Byte 0xFFFFFFFF) 0xFFFFFFFF

/-- The class-level state of `CompressedJSONCache`: `_data`, `_hash`,
`_last_update` (UTC time in seconds). -/
structure CacheState where
  data : Option (List Station)
  hash : Option ℕ
  lastUpdate : Option ℤ
deriving DecidableEq

/-- What one `update` call did: committed a new document, skipped because the
fingerprint was unchanged, or attempted a decode that failed (the logged
"Cache update failed" error). -/
inductive CacheEvent where
  | stored
  | skipped
  | decodeFailed
deriving DecidableEq, Repr

namespace CompressedJSONCache

/-- `CompressedJSONCache.update(raw_data)`.  `decode` abstracts the two decode
paths (`json.loads(gzip.decompress(raw))`, falling back on gzip/zlib errors to
`json.loads(raw.decode('utf-8'))`; both are external-library calls): it is
`none` exactly when the combined decode raises.  The fingerprint is compared
against the stored one; on mismatch a decode is attempted, and only on decode
success are `_data`, `_hash` and `_last_update` assigned — any exception is
caught and logged, leaving the state untouched. -/
def update (decode : List ℕ → Option (List Station)) (now : ℤ)
    (raw : List ℕ) (s : CacheState) : CacheState × CacheEvent :=
  if s.hash ≠ some (crc32 raw) then
    match decode raw with
    | some d => (⟨some d, some (crc32 raw), some now⟩, .stored)
    | none => (s, .decodeFailed)
  else
    (s, .skipped)

/-- `CompressedJSONCache.get_data()`:
`if cls._data and utcnow() - cls._last_update < CACHE_TTL`.  Note that Python
truthiness makes an empty decoded list behave like no data.  `CACHE_TTL` is
5 minutes = 300 seconds. -/
def get_data (now : ℤ) (s : CacheState) : Option (List Station) :=
  match s.data, s.lastUpdate with
  | some d, some t => if d ≠ [] ∧ now - t < 300 then some d else none
  | _, _ => none

end CompressedJSONCache

/-! ## BackgroundUpdater -/

/-- The scheduler's class-level state: `_task` is `none` when no loop task was
ever created, `some done` for a created task with its done flag; `started`
counts the update-loop tasks ever created (a freshly created `asyncio` task is
not done). -/
structure UpdaterState where
  task : Option Bool
  started : ℕ
deriving DecidableEq, Repr

/-- `BackgroundUpdater.start()`: `if not cls._task or cls._task.done():`
create a fresh loop task, otherwise do nothing. -/
def BackgroundUpdater.start (s : UpdaterState) : UpdaterState :=
  match s.task with
  | some false => s
  | _ => ⟨some false, s.started + 1⟩

/-! ## Spec-side characterizations of the accumulation loop

These re-state what `collectObs` folds up, as direct list computations, and
are proved equal to the fold below; the claims' theorems are phrased with
them. -/

/-- The matched observations, in document order: for each matching station
with an entry for the metric, its value, the station id, and the raw `time`
field. -/
def matchedObs (isMatch : Station → Bool) (ty : String) (data : List Station) :
    List (ℚ × String × Option String) :=
  data.filterMap (fun s =>
    if isMatch s then
      (findPollutant ty s.pollutants).map (fun p => (p.value, s.id, p.time))
    else none)

/-- The matched values, in document order. -/
def matchedValues (isMatch : Station → Bool) (ty : String)
    (data : List Station) : List ℚ :=
  (matchedObs isMatch ty data).map (fun o => o.1)

/-- The matched stations' ids, in document order. -/
def matchedIds (isMatch : Station → Bool) (ty : String)
    (data : List Station) : List String :=
  (matchedObs isMatch ty data).map (fun o => o.2.1)

/-- The successfully parsed timestamps of the matched observations. -/
def parsedTimes (isMatch : Station → Bool) (ty : String)
    (data : List Station) : List DT :=
  (matchedObs isMatch ty data).filterMap (fun o => o.2.2.bind date_parse)

/-! ## Concrete documents used as test inputs -/

/-- The spec's two-station scenario document. -/
def scenarioDoc : List Station :=
  [⟨"A", "Kyiv", [⟨"Temperature", 20, "C", some "2024-01-01T10:00:00.000Z"⟩]⟩,
   ⟨"B", "Kyiv", [⟨"Temperature", 22, "C", some "2024-01-01T10:05:00.000Z"⟩]⟩]

/-- A document in which two distinct records share the station id `"A"`. -/
def dupIdDoc : List Station :=
  [⟨"A", "Kyiv", [⟨"Humidity", 10, "%", none⟩]⟩,
   ⟨"A", "Lviv", [⟨"Humidity", 30, "%", none⟩]⟩]

theorem foldl_collectStep (isMatch : Station → Bool) (ty : String)
    (data : List Station) :
    ∀ acc : List ℚ × List String × Option DT,
      data.foldl (collectStep isMatch ty) acc =
        (acc.1 ++ matchedValues isMatch ty data,
         acc.2.1 ++ matchedIds isMatch ty data,
         (parsedTimes isMatch ty data).foldl maxStep acc.2.2) := by
  induction data with
  | nil =>
    intro acc
    simp [matchedValues, matchedIds, parsedTimes, matchedObs]
  | cons s d ih =>
    intro acc
    simp only [List.foldl_cons]
    rw [ih]
    by_cases hm : isMatch s
    · cases hp : findPollutant ty s.pollutants with
      | none =>
        simp [collectStep, hm, hp, matchedValues, matchedIds, parsedTimes,
          matchedObs]
      | some p =>
        cases htime : p.time with
        | none =>
          simp [collectStep, hm, hp, htime, matchedValues, matchedIds,
            parsedTimes, matchedObs]
        | some tstr =>
          cases hdp : date_parse tstr with
          | none =>
            simp [collectStep, hm, hp, htime, hdp, matchedValues, matchedIds,
              parsedTimes, matchedObs]
          | some dtv =>
            simp [collectStep, hm, hp, htime, hdp, matchedValues, matchedIds,
              parsedTimes, matchedObs]
    · simp [collectStep, hm, matchedValues, matchedIds, parsedTimes,
        matchedObs]

theorem collectObs_eq (isMatch : Station → Bool) (ty : String)
    (data : List Station) :
    collectObs isMatch ty data =
      (matchedValues isMatch ty data, matchedIds isMatch ty data,
       (parsedTimes isMatch ty data).foldl maxStep none) := by
  simpa using foldl_collectStep isMatch ty data ([], [], none)

/-- `_update_state` always overwrites `_state` with the rounded value. -/
theorem update_state_state (ty : String) (st : SensorState) (v : ℚ)
    (ts : String) : (update_state ty st v ts).state = some (roundPolicy ty v) := by
  unfold update_state
  cases h : date_parse ts <;> simp

/-- `_update_state` never touches `_source_ids`. -/
theorem update_state_sourceIds (ty : String) (st : SensorState) (v : ℚ)
    (ts : String) : (update_state ty st v ts).sourceIds = st.sourceIds := by
  unfold update_state
  cases h : date_parse ts <;> simp

theorem optimized_update_cons (data : List Station) (identifier : String)
    (isCity : Bool) (ty : String) (st : SensorState) (v : ℚ) (vs : List ℚ)
    (hv : matchedValues (stationMatches identifier isCity) ty data = v :: vs) :
    OptimizedSensor.async_update (some data) identifier isCity ty st =
      ({ update_state ty { st with sourceIds := [] }
          (if (v :: vs).length > 1 then mean (v :: vs) else v)
          (latestString
            ((parsedTimes (stationMatches identifier isCity) ty data).foldl
              maxStep none)) with
        sourceIds := matchedIds (stationMatches identifier isCity) ty data },
       true) := by
  simp only [OptimizedSensor.async_update, collectObs_eq, hv]

theorem optimized_update_nil (data : List Station) (identifier : String)
    (isCity : Bool) (ty : String) (st : SensorState)
    (hv : matchedValues (stationMatches identifier isCity) ty data = []) :
    OptimizedSensor.async_update (some data) identifier isCity ty st =
      ({ st with sourceIds := [] }, false) := by
  simp only [OptimizedSensor.async_update, collectObs_eq, hv]

theorem aggregated_update_cons (data : List Station)
    (sensorIds : List String) (ty : String) (st : SensorState) (v : ℚ)
    (vs : List ℚ)
    (hv : matchedValues (fun s => sensorIds.contains s.id) ty data = v :: vs) :
    AggregatedSensor.async_update (some data) sensorIds ty st =
      ({ update_state ty { st with sourceIds := [] } (mean (v :: vs))
          (latestString
            ((parsedTimes (fun s => sensorIds.contains s.id) ty data).foldl
              maxStep none)) with
        sourceIds := [] }, true) := by
  simp only [AggregatedSensor.async_update, collectObs_eq, hv]

/-- On the Temperature metric the rounding policy is `round(value, 1)`. -/
theorem roundPolicy_temperature (v : ℚ) :
    roundPolicy "Temperature" v = pyRound1 v := rfl

/-- On the Humidity metric the rounding policy is `round(value)`. -/
theorem roundPolicy_humidity (v : ℚ) :
    roundPolicy "Humidity" v = (roundHalfEven v : ℚ) := rfl

/-! ## Claim theorems -/

/-- C1: for every station list and metric name, when exactly one station
reports the metric the computed value is that station's raw value, and when
two or more report it the computed value is the arithmetic mean of the
matched values; in both cases rounded per the metric's policy (`roundPolicy`:
Temperature to 1 decimal place, every other metric to the nearest whole
number, Python `round` semantics). -/
theorem c1_single_raw_multi_mean :
    ∀ (data : List Station) (identifier : String) (isCity : Bool)
      (ty : String) (st : SensorState),
      (∀ v : ℚ,
        matchedValues (stationMatches identifier isCity) ty data = [v] →
        (OptimizedSensor.async_update (some data) identifier isCity ty
            st).1.state = some (roundPolicy ty v)) ∧
      (2 ≤ (matchedValues (stationMatches identifier isCity) ty data).length →
        (OptimizedSensor.async_update (some data) identifier isCity ty
            st).1.state =
          some (roundPolicy ty
            (mean (matchedValues (stationMatches identifier isCity) ty
              data)))) ∧
      (∀ sensorIds : List String,
        matchedValues (fun s => sensorIds.contains s.id) ty data ≠ [] →
        (AggregatedSensor.async_update (some data) sensorIds ty st).1.state =
          some (roundPolicy ty
            (mean (matchedValues (fun s => sensorIds.contains s.id) ty
              data)))) ∧
      (∀ w : ℚ, mean [w] = w) := by
  intro data identifier isCity ty st
  refine ⟨?_, ?_, ?_, fun w => by simp [mean]⟩
  case refine_3 =>
    intro sensorIds hne
    rcases hvs : matchedValues (fun s => sensorIds.contains s.id) ty data with
      _ | ⟨v, vs⟩
    · exact absurd hvs hne
    · rw [aggregated_update_cons data sensorIds ty st v vs hvs]
      simp [update_state_state, hvs]
  · intro v hv
    rw [optimized_update_cons data identifier isCity ty st v [] hv]
    simp [update_state_state]
  · intro hlen
    rcases hvs : matchedValues (stationMatches identifier isCity) ty data with
      _ | ⟨v, vs⟩
    · rw [hvs] at hlen
      simp at hlen
    · rw [hvs] at hlen
      have h0 : 0 < vs.length := by
        simp only [List.length_cons] at hlen
        omega
      rw [optimized_update_cons data identifier isCity ty st v vs hvs]
      simp [update_state_state, h0]

/-- C1 witness: on the two-station scenario document, a single-id consumer
takes the raw value of station A, and a city consumer takes the mean of both
stations. -/
theorem c1_witness :
    (OptimizedSensor.async_update (some scenarioDoc) "A" false "Temperature"
      ⟨none, none, []⟩).1.state = some (roundPolicy "Temperature" 20) ∧
    (OptimizedSensor.async_update (some scenarioDoc) "Kyiv" true "Temperature"
      ⟨none, none, []⟩).1.state =
      some (roundPolicy "Temperature"
        (mean (matchedValues (stationMatches "Kyiv" true) "Temperature"
          scenarioDoc))) :=
  ⟨(c1_single_raw_multi_mean scenarioDoc "A" false "Temperature"
      ⟨none, none, []⟩).1 20 (by decide),
   (c1_single_raw_multi_mean scenarioDoc "Kyiv" true "Temperature"
      ⟨none, none, []⟩).2.1 (by decide)⟩

/-- C3 counterexample: the aggregate-set consumer configured with ids A, B, C
over the two-station scenario document exposes its configured id set as
`source_sensors`, which differs from the list of station ids that actually
contributed (A and B only). -/
theorem c3_counterexample :
    (AggregatedSensor.extra_state_attributes ["A", "B", "C"]
        ((AggregatedSensor.async_update (some scenarioDoc) ["A", "B", "C"]
          "Temperature" ⟨none, none, []⟩).1)).sourceSensors ≠
      matchedIds (fun s => List.contains ["A", "B", "C"] s.id) "Temperature"
        scenarioDoc := by
  decide

/-- C3 amended: the single-station/city consumer's `source_sensors` attribute
equals the contributing station ids in document order, but the aggregate-set
consumer exposes its configured id set regardless of contribution; in the
two-station scenario over ids A, B for Temperature the value is 21, the
timestamp "2024-01-01 10:05:00", and the exposed set is A, B (which there
coincides with the contributors). -/
theorem c3_source_sensors :
    (∀ (data : List Station) (identifier : String) (isCity : Bool)
      (ty : String) (st : SensorState),
      (OptimizedSensor.extra_state_attributes
        ((OptimizedSensor.async_update (some data) identifier isCity ty
          st).1)).sourceSensors =
        matchedIds (stationMatches identifier isCity) ty data) ∧
    (∀ (sensorIds : List String) (data : Option (List Station))
      (ty : String) (st : SensorState),
      (AggregatedSensor.extra_state_attributes sensorIds
        ((AggregatedSensor.async_update data sensorIds ty
          st).1)).sourceSensors = sensorIds) ∧
    ((AggregatedSensor.async_update (some scenarioDoc) ["A", "B"]
        "Temperature" ⟨none, none, []⟩).1.state = some 21 ∧
      (AggregatedSensor.async_update (some scenarioDoc) ["A", "B"]
        "Temperature" ⟨none, none, []⟩).1.lastUpdated =
        some "2024-01-01 10:05:00" ∧
      AggregatedSensor.extra_state_attributes ["A", "B"]
        ((AggregatedSensor.async_update (some scenarioDoc) ["A", "B"]
          "Temperature" ⟨none, none, []⟩).1) =
        ⟨some "2024-01-01 10:05:00", ["A", "B"]⟩) := by
  refine ⟨?_, fun _ _ _ _ => rfl, ?_⟩
  case refine_2 =>
    have hv : matchedValues (fun s => List.contains ["A", "B"] s.id)
        "Temperature" scenarioDoc = [20, 22] := by decide
    rw [aggregated_update_cons scenarioDoc ["A", "B"] "Temperature"
      ⟨none, none, []⟩ 20 [22] hv]
    have hfold : (parsedTimes (fun s => List.contains ["A", "B"] s.id)
        "Temperature" scenarioDoc).foldl maxStep none =
        some ⟨2024, 1, 1, 10, 5, 0, 0⟩ := by decide
    rw [hfold]
    have hval : roundPolicy "Temperature" (mean (20 :: [22])) = 21 := by
      norm_num [roundPolicy_temperature, mean, pyRound1, roundHalfEven]
    have hrec : update_state "Temperature"
        { (⟨none, none, []⟩ : SensorState) with sourceIds := [] }
        (mean (20 :: [22]))
        (latestString (some ⟨2024, 1, 1, 10, 5, 0, 0⟩)) =
        ⟨some 21, some "2024-01-01 10:05:00", []⟩ := by
      unfold update_state
      rw [hval]
      decide
    rw [hrec]
    decide
  intro data identifier isCity ty st
  rcases hvs : matchedValues (stationMatches identifier isCity) ty data with
    _ | ⟨v, vs⟩
  · rw [optimized_update_nil data identifier isCity ty st hvs]
    have hobs : matchedObs (stationMatches identifier isCity) ty data = [] := by
      have := hvs
      unfold matchedValues at this
      exact List.map_eq_nil_iff.mp this
    simp [OptimizedSensor.extra_state_attributes, matchedIds, hobs]
  · rw [optimized_update_cons data identifier isCity ty st v vs hvs]
    simp [OptimizedSensor.extra_state_attributes]

/-- C4 counterexample: in a document with two records sharing id A (Humidity
10 and 30), the single-station-id consumer's value is their mean 20, not the
first matching record's value 10. -/
theorem c4_counterexample :
    (OptimizedSensor.async_update (some dupIdDoc) "A" false "Humidity"
        ⟨none, none, []⟩).1.state = some 20 ∧
    (OptimizedSensor.async_update (some dupIdDoc) "A" false "Humidity"
        ⟨none, none, []⟩).1.state ≠ some (roundPolicy "Humidity" 10) := by
  have hv : matchedValues (stationMatches "A" false) "Humidity" dupIdDoc =
      [10, 30] := by decide
  rw [optimized_update_cons dupIdDoc "A" false "Humidity" ⟨none, none, []⟩
    10 [30] hv]
  have hfold : (parsedTimes (stationMatches "A" false) "Humidity"
      dupIdDoc).foldl maxStep none = none := by decide
  rw [hfold]
  have hval : roundPolicy "Humidity"
      (if ((10 : ℚ) :: [30]).length > 1 then mean (10 :: [30]) else 10) =
      20 := by
    norm_num [roundPolicy_humidity, mean, roundHalfEven]
  have h10 : roundPolicy "Humidity" 10 = 10 := by
    norm_num [roundPolicy_humidity, roundHalfEven]
  have hrec : update_state "Humidity"
      { (⟨none, none, []⟩ : SensorState) with sourceIds := [] }
      (if ((10 : ℚ) :: [30]).length > 1 then mean (10 :: [30]) else 10)
      (latestString none) = ⟨some 20, none, []⟩ := by
    unfold update_state
    rw [hval]
    decide
  rw [hrec, h10]
  decide

/-- C4 amended: lookup by station id considers every record whose identifier
matches, in document order — not only the first — and the consumer
aggregates across all of them; only when the document holds exactly one
record with the id is the computed value taken from that record alone. -/
theorem c4_all_matching_records :
    ∀ (data : List Station) (identifier : String) (ty : String)
      (st : SensorState),
      matchedObs (stationMatches identifier false) ty data =
        (data.filter (fun s => s.id == identifier)).filterMap
          (fun s => (findPollutant ty s.pollutants).map
            (fun p => (p.value, s.id, p.time))) ∧
      (∀ (s1 : Station) (p : Pollutant),
        data.filter (fun s => s.id == identifier) = [s1] →
        findPollutant ty s1.pollutants = some p →
        (OptimizedSensor.async_update (some data) identifier false ty
            st).1.state = some (roundPolicy ty p.value)) := by
  intro data identifier ty st
  have key : ∀ d : List Station,
      d.filterMap (fun s =>
        if s.id == identifier then
          (findPollutant ty s.pollutants).map
            (fun p => (p.value, s.id, p.time))
        else none) =
      (d.filter (fun s => s.id == identifier)).filterMap
        (fun s => (findPollutant ty s.pollutants).map
          (fun p => (p.value, s.id, p.time))) := by
    intro d
    induction d with
    | nil => rfl
    | cons s d ih =>
      by_cases hs : s.id = identifier
      · cases hp : findPollutant ty s.pollutants with
        | none => simpa [List.filterMap_cons, List.filter_cons, hs, hp] using ih
        | some p =>
          simpa [List.filterMap_cons, List.filter_cons, hs, hp] using ih
      · simpa [List.filterMap_cons, List.filter_cons, hs] using ih
  have hfilter : matchedObs (stationMatches identifier false) ty data =
      (data.filter (fun s => s.id == identifier)).filterMap
        (fun s => (findPollutant ty s.pollutants).map
          (fun p => (p.value, s.id, p.time))) := key data
  refine ⟨hfilter, ?_⟩
  intro s1 p hone hp
  have hv : matchedValues (stationMatches identifier false) ty data =
      [p.value] := by
    unfold matchedValues
    rw [hfilter, hone]
    simp [hp]
  rw [optimized_update_cons data identifier false ty st p.value [] hv]
  simp [update_state_state]

/-- C4 witness: on the scenario document, id B occurs exactly once, and the
consumer's value is that record's raw Temperature rounded. -/
theorem c4_witness :
    (OptimizedSensor.async_update (some scenarioDoc) "B" false "Temperature"
        ⟨none, none, []⟩).1.state = some (roundPolicy "Temperature" 22) :=
  (c4_all_matching_records scenarioDoc "B" "Temperature" ⟨none, none, []⟩).2
    ⟨"B", "Kyiv", [⟨"Temperature", 22, "C", some "2024-01-01T10:05:00.000Z"⟩]⟩
    ⟨"Temperature", 22, "C", some "2024-01-01T10:05:00.000Z"⟩
    (by decide) (by decide)

/-- C5 counterexample: on an update that resolves no matching station, the
previous value and timestamp are retained, but the contributing-station-id
list is cleared rather than left untouched, so the previous reading is not
preserved in its entirety. -/
theorem c5_counterexample :
    (OptimizedSensor.async_update (some []) "A" false "Temperature"
        ⟨some 5, some "2024-01-01 10:00:00", ["A"]⟩).1.sourceIds = [] ∧
    (OptimizedSensor.async_update (some []) "A" false "Temperature"
        ⟨some 5, some "2024-01-01 10:00:00", ["A"]⟩).1 ≠
      ⟨some 5, some "2024-01-01 10:00:00", ["A"]⟩ := by
  decide

/-- C5 amended: when an update resolves no data or no matching values, the
previous value and last-updated timestamp are retained and no state-changed
signal is published, but `_source_ids` is reset to the empty list at the
start of every update. -/
theorem c5_no_data_keeps_reading :
    ∀ (identifier : String) (isCity : Bool) (ty : String) (st : SensorState),
      OptimizedSensor.async_update none identifier isCity ty st =
        ({ st with sourceIds := [] }, false) ∧
      ∀ data : List Station,
        matchedValues (stationMatches identifier isCity) ty data = [] →
        OptimizedSensor.async_update (some data) identifier isCity ty st =
          ({ st with sourceIds := [] }, false) := by
  intro identifier isCity ty st
  exact ⟨rfl, fun data hv => optimized_update_nil data identifier isCity ty
    st hv⟩

/-- C5 witness: the spec scenario — the id "missing" resolves no station in
the scenario document; value and timestamp stay, nothing is published. -/
theorem c5_witness :
    OptimizedSensor.async_update (some scenarioDoc) "missing" false
        "Temperature" ⟨some 5, some "2024-01-01 10:00:00", []⟩ =
      (⟨some 5, some "2024-01-01 10:00:00", []⟩, false) :=
  (c5_no_data_keeps_reading "missing" false "Temperature"
    ⟨some 5, some "2024-01-01 10:00:00", []⟩).2 scenarioDoc (by decide)

/-- C6: when the payload fails both decode paths (the combined decode yields
nothing), the cache update leaves the stored document, fingerprint and fetch
timestamp unchanged, and — whenever the fingerprint actually differs from the
stored one, so that a decode is attempted — the failure is reported as the
logged decode error. -/
theorem c6_decode_error_keeps_state :
    ∀ (decode : List ℕ → Option (List Station)) (now : ℤ) (raw : List ℕ)
      (s : CacheState), decode raw = none →
      (CompressedJSONCache.update decode now raw s).1 = s ∧
      (s.hash ≠ some (crc32 raw) →
        (CompressedJSONCache.update decode now raw s).2 =
          CacheEvent.decodeFailed) := by
  intro decode now raw s h
  unfold CompressedJSONCache.update
  by_cases hh : s.hash ≠ some (crc32 raw)
  · rw [if_pos hh, h]
    exact ⟨rfl, fun _ => rfl⟩
  · rw [if_neg hh]
    exact ⟨rfl, fun hcon => absurd hcon hh⟩

/-- C6 witness: a payload rejected by both decode paths leaves an empty cache
state untouched and produces the decode-error event. -/
theorem c6_witness :
    (CompressedJSONCache.update (fun _ => none) 0 [1, 2, 3]
        ⟨none, none, none⟩).1 = ⟨none, none, none⟩ ∧
    ((⟨none, none, none⟩ : CacheState).hash ≠ some (crc32 [1, 2, 3]) →
      (CompressedJSONCache.update (fun _ => none) 0 [1, 2, 3]
        ⟨none, none, none⟩).2 = CacheEvent.decodeFailed) :=
  c6_decode_error_keeps_state (fun _ => none) 0 [1, 2, 3] ⟨none, none, none⟩
    rfl

/-- C7 counterexample: submitting the same undecodable payload twice gives
equal fingerprints, yet the second `update` attempts the decode again (the
decode-failed event, with its logged error, witnesses the re-decode), because
the fingerprint is only stored after a successful decode.  The claim's "no
re-decode or re-parse occurs" therefore fails. -/
theorem c7_counterexample :
    (CompressedJSONCache.update (fun _ => none) 1 [1, 2, 3]
        ((CompressedJSONCache.update (fun _ => none) 0 [1, 2, 3]
          ⟨none, none, none⟩).1)).2 = CacheEvent.decodeFailed ∧
    crc32 [1, 2, 3] = crc32 [1, 2, 3] ∧
    CacheEvent.decodeFailed ≠ CacheEvent.skipped := by
  refine ⟨?_, rfl, by decide⟩
  decide

/-- A committed update stores the payload's fingerprint. -/
theorem update_stored_hash (decode : List ℕ → Option (List Station))
    (now : ℤ) (raw : List ℕ) (s : CacheState)
    (h : (CompressedJSONCache.update decode now raw s).2 = CacheEvent.stored) :
    (CompressedJSONCache.update decode now raw s).1.hash =
      some (crc32 raw) := by
  unfold CompressedJSONCache.update at h ⊢
  by_cases hh : s.hash ≠ some (crc32 raw)
  · rw [if_pos hh] at h ⊢
    cases hd : decode raw with
    | none =>
      rw [hd] at h
      simp at h
    | some d => rfl
  · rw [if_neg hh] at h
    simp at h

/-- An update whose fingerprint equals the stored one is skipped. -/
theorem update_skipped (decode : List ℕ → Option (List Station)) (now : ℤ)
    (raw : List ℕ) (s : CacheState) (h : s.hash = some (crc32 raw)) :
    CompressedJSONCache.update decode now raw s = (s, CacheEvent.skipped) := by
  unfold CompressedJSONCache.update
  rw [if_neg (fun hc => hc h)]

/-- C7 amended: after an `update(B1)` that actually commits (decodes and
stores), a subsequent `update(B2)` with an equal fingerprint is a no-op: the
stored document, fingerprint and timestamp are unchanged and no decode is
attempted (the skipped event).  When the first update failed to decode, the
fingerprint is not stored and the second call re-attempts the decode. -/
theorem c7_noop_after_commit :
    ∀ (decode : List ℕ → Option (List Station)) (n1 n2 : ℤ)
      (B1 B2 : List ℕ) (s : CacheState),
      crc32 B1 = crc32 B2 →
      (CompressedJSONCache.update decode n1 B1 s).2 = CacheEvent.stored →
      CompressedJSONCache.update decode n2 B2
          ((CompressedJSONCache.update decode n1 B1 s).1) =
        ((CompressedJSONCache.update decode n1 B1 s).1,
         CacheEvent.skipped) := by
  intro decode n1 n2 B1 B2 s hcrc hstored
  have hhash := update_stored_hash decode n1 B1 s hstored
  rw [hcrc] at hhash
  exact update_skipped decode n2 B2 _ hhash

/-- C7 witness: a decodable payload committed once is skipped when submitted
again. -/
theorem c7_witness :
    CompressedJSONCache.update (fun _ => some []) 5 [1, 2, 3]
        ((CompressedJSONCache.update (fun _ => some []) 0 [1, 2, 3]
          ⟨none, none, none⟩).1) =
      ((CompressedJSONCache.update (fun _ => some []) 0 [1, 2, 3]
        ⟨none, none, none⟩).1, CacheEvent.skipped) :=
  c7_noop_after_commit (fun _ => some []) 0 5 [1, 2, 3] [1, 2, 3]
    ⟨none, none, none⟩ rfl (by decide)

/-- C8: `get_data` returns a document only when it is the cached one and its
age is strictly under the 5-minute (300-second) freshness window; once the
window has elapsed with no further update it returns nothing. -/
theorem c8_freshness_window :
    ∀ (now : ℤ) (s : CacheState),
      (∀ d, CompressedJSONCache.get_data now s = some d →
        s.data = some d ∧ ∃ t, s.lastUpdate = some t ∧ now - t < 300) ∧
      (∀ t, s.lastUpdate = some t → 300 ≤ now - t →
        CompressedJSONCache.get_data now s = none) := by
  intro now s
  obtain ⟨sd, sh, sl⟩ := s
  constructor
  · intro d h
    cases sd with
    | none => simp [CompressedJSONCache.get_data] at h
    | some d0 =>
      cases sl with
      | none => simp [CompressedJSONCache.get_data] at h
      | some t0 =>
        simp only [CompressedJSONCache.get_data] at h
        split_ifs at h with hc
        simp only [Option.some.injEq] at h
        exact ⟨by rw [h], t0, rfl, hc.2⟩
  · intro t ht h300
    cases sd with
    | none => rfl
    | some d0 =>
      cases sl with
      | none => simp at ht
      | some t0 =>
        have ht0 : t0 = t := by
          simpa using ht
        subst ht0
        simp only [CompressedJSONCache.get_data]
        rw [if_neg]
        intro hc
        omega

/-- C8 witness: a cache filled at time 0 and read at time 400 (> 300 seconds
later, with no further update) yields no data. -/
theorem c8_witness :
    CompressedJSONCache.get_data 400
      ⟨some scenarioDoc, some 7, some 0⟩ = none :=
  (c8_freshness_window 400 ⟨some scenarioDoc, some 7, some 0⟩).2 0 rfl
    (by norm_num)

/-- C9: `start()` is a no-op while the loop task exists and is not done, so
two successive `start()` calls from the initial state create exactly one
loop. -/
theorem c9_start_idempotent :
    (∀ s : UpdaterState, s.task = some false → BackgroundUpdater.start s = s) ∧
    ∀ s : UpdaterState, s.task = none →
      (BackgroundUpdater.start (BackgroundUpdater.start s)).started =
        s.started + 1 ∧
      BackgroundUpdater.start (BackgroundUpdater.start s) =
        BackgroundUpdater.start s := by
  constructor
  · intro s h
    unfold BackgroundUpdater.start
    rw [h]
  · intro s h
    have h1 : BackgroundUpdater.start s = ⟨some false, s.started + 1⟩ := by
      unfold BackgroundUpdater.start
      rw [h]
    rw [h1]
    exact ⟨rfl, rfl⟩

/-- C9 witness: a second `start()` on a running loop changes nothing, and two
`start()` calls from scratch count one created loop. -/
theorem c9_witness :
    BackgroundUpdater.start ⟨some false, 3⟩ = ⟨some false, 3⟩ ∧
    (BackgroundUpdater.start (BackgroundUpdater.start ⟨none, 0⟩)).started =
      1 :=
  ⟨c9_start_idempotent.1 ⟨some false, 3⟩ rfl,
   (c9_start_idempotent.2 ⟨none, 0⟩ rfl).1⟩

/-- C10: when the timestamp string fails to parse — in particular the empty
string passed when no contributing observation had a parseable time —
`_update_state` still overwrites `_state` with the rounded value while
`_last_updated` keeps its previous value: a partial update, not a
rollback. -/
theorem c10_partial_update :
    date_parse "" = none ∧ latestString none = "" ∧
    ∀ (ty : String) (st : SensorState) (v : ℚ) (ts : String),
      date_parse ts = none →
      update_state ty st v ts =
        { st with state := some (roundPolicy ty v) } := by
  refine ⟨rfl, rfl, ?_⟩
  intro ty st v ts h
  unfold update_state
  rw [h]

/-- C10 witness: updating with value 7/2 and the empty timestamp string
overwrites the state with the rounded 4 and keeps the old timestamp. -/
theorem c10_witness :
    update_state "Humidity" ⟨some 1, some "2024-01-01 10:00:00", []⟩ (7 / 2)
        "" =
      ⟨some 4, some "2024-01-01 10:00:00", []⟩ := by
  rw [c10_partial_update.2.2 "Humidity" ⟨some 1, some "2024-01-01 10:00:00", []⟩
    (7 / 2) "" rfl]
  have : roundPolicy "Humidity" (7 / 2) = 4 := by
    rw [roundPolicy_humidity]
    norm_num [roundHalfEven, show Int.fdiv 7 2 = 3 from by decide]
  rw [this]

end MeteoStation
